import Mathlib

/-!
Verification of the Blancosy financial data processor
(`official_data_processor.py`, class `OfficialBlancosyDataProcessor`).

Shallow embedding: amounts are exact rationals (the Python code uses
pandas numeric columns; the spec's arithmetic is exact decimal
arithmetic), dates are `Option Int` (an unparseable date, pandas `NaT`,
is `none`), and each spreadsheet source is a list of raw rows whose
cells are `Option` values (`none` = missing / NaN after coercion).
A source whose load fails outright (missing file, missing sheet, column
mismatch — each `try/except` block in `load_and_clean_data`) is `none`
at the `Sources` level.
-/

namespace Blancosy

/-- One consolidated ledger record: the columns
`['Date', 'Amount', 'Year', 'Category', 'Type', 'Details']` selected by
`load_and_clean_data` for every source. -/
structure Record where
  date : Option Int
  amount : ℚ
  year : Int
  category : String
  type : String
  details : String
deriving DecidableEq, Repr

/-- The six fixed 2024 records created from the official P&L constants
(`load_and_clean_data`, lines 31-77): one Sales income record and five
expense records, all dated 2024-12-31. -/
def official2024Records : List Record :=
  [ ⟨some 20241231, 22619122, 2024, "Sales", "Income",
      "Total Sales Revenue (Official P&L)"⟩,
    ⟨some 20241231, 17244564, 2024, "Stock Purchase", "Expense",
      "Cost of Goods Sold - Purchases (Official P&L)"⟩,
    ⟨some 20241231, 601155, 2024, "Labour", "Expense",
      "Labour Expenses (Official P&L)"⟩,
    ⟨some 20241231, 192000, 2024, "Rent", "Expense",
      "Rent Expenses (Official P&L)"⟩,
    ⟨some 20241231, 1028770, 2024, "Transport", "Expense",
      "Transport Expenses (Official P&L)"⟩,
    ⟨some 20241231, (163557.65 : ℚ), 2024, "Transaction Costs", "Expense",
      "Transaction Costs & Charges (Official P&L)"⟩ ]

/-- A row of the Sales sheet after the positional column renaming to
`['Date', 'Value_Date', 'Withdrawals', 'Amount', 'Details']` and the
`errors='coerce'` conversions: `none` is a missing or unparseable cell. -/
structure SalesRow where
  date : Option Int
  amount : Option ℚ
  details : String
deriving DecidableEq, Repr

/-- A row of a bank-statement-shaped sheet (Labour, Purchase of stock,
Utilities, Saving, Expense): columns `Tran Date`, `Withdrawals`,
`Deposits`, `Transaction Narrative`. -/
structure BankRow where
  tranDate : Option Int
  withdrawals : Option ℚ
  deposits : Option ℚ
  details : String
deriving DecidableEq, Repr

/-- A row of the rent sheet after the positional renaming to
`['Date1', 'Date', 'Amount', 'Col3', 'Details']` and coercions. -/
structure RentRow where
  date : Option Int
  amount : Option ℚ
  details : String
deriving DecidableEq, Repr

/-- Sales 2025 (lines 86-100): coerce date and amount, drop rows where
either is missing, tag Year=2025, Category=Sales, Type=Income. -/
def processSales (rows : List SalesRow) : List Record :=
  rows.filterMap fun r =>
    match r.date, r.amount with
    | some d, some a => some ⟨some d, a, 2025, "Sales", "Income", r.details⟩
    | _, _ => none

/-- Labour 2025 (lines 102-116): coerce `Tran Date`, drop rows with
missing date or missing `Withdrawals`, amount = Withdrawals. -/
def processLabour (rows : List BankRow) : List Record :=
  rows.filterMap fun r =>
    match r.tranDate, r.withdrawals with
    | some d, some w => some ⟨some d, w, 2025, "Labour", "Expense", r.details⟩
    | _, _ => none

/-- Rent 2025 (lines 118-134): `df.iloc[1:]` drops the first row, then
coerce date and amount and drop rows where either is missing. -/
def processRent (rows : List RentRow) : List Record :=
  (rows.drop 1).filterMap fun r =>
    match r.date, r.amount with
    | some d, some a => some ⟨some d, a, 2025, "Rent", "Expense", r.details⟩
    | _, _ => none

/-- Purchase of stock 2025 (lines 136-150): drop rows with missing date
or missing `Deposits`, amount = Deposits. -/
def processStock (rows : List BankRow) : List Record :=
  rows.filterMap fun r =>
    match r.tranDate, r.deposits with
    | some d, some a =>
        some ⟨some d, a, 2025, "Stock Purchase", "Expense", r.details⟩
    | _, _ => none

/-- Utilities 2025 (lines 152-168):
`Amount = Withdrawals.fillna(0) + Deposits.fillna(0)`, drop rows with a
missing date, keep rows with `Amount > 0`. -/
def processUtilities (rows : List BankRow) : List Record :=
  (rows.filter fun r =>
      r.tranDate.isSome && decide (0 < r.withdrawals.getD 0 + r.deposits.getD 0)
    ).map fun r =>
      ⟨r.tranDate, r.withdrawals.getD 0 + r.deposits.getD 0, 2025,
        "Utilities", "Expense", r.details⟩

/-- The income half of the Saving sheet (lines 176-184): rows with a
non-null positive `Deposits` value become Savings income records.
Note: the Saving sheet never drops rows whose date failed to parse. -/
def savingIncome (rows : List BankRow) : List Record :=
  (rows.filter fun r => decide (0 < r.deposits.getD 0)).map fun r =>
    ⟨r.tranDate, r.deposits.getD 0, 2025, "Savings", "Income", r.details⟩

/-- The expense half of the Saving sheet (lines 186-195): rows with a
non-null positive `Withdrawals` value become Savings Withdrawal
expense records. -/
def savingExpense (rows : List BankRow) : List Record :=
  (rows.filter fun r => decide (0 < r.withdrawals.getD 0)).map fun r =>
    ⟨r.tranDate, r.withdrawals.getD 0, 2025, "Savings Withdrawal", "Expense",
      r.details⟩

/-- Saving 2025 (lines 170-199): income records from deposits followed
by expense records from withdrawals. -/
def processSaving (rows : List BankRow) : List Record :=
  savingIncome rows ++ savingExpense rows

/-- Other Expenses 2025 (lines 201-215): same shape as Labour, tagged
Other Expenses. -/
def processExpense (rows : List BankRow) : List Record :=
  rows.filterMap fun r =>
    match r.tranDate, r.withdrawals with
    | some d, some w =>
        some ⟨some d, w, 2025, "Other Expenses", "Expense", r.details⟩
    | _, _ => none

/-- The load outcome of every source: `none` means the corresponding
`try` block raised (missing file, missing sheet, column mismatch) and
the `except` branch only logged. The official-2024 block (lines 31-79)
is constant data but sits in its own `try/except` like the rest. -/
structure Sources where
  official2024 : Option Unit
  sales : Option (List SalesRow)
  labour : Option (List BankRow)
  rent : Option (List RentRow)
  stock : Option (List BankRow)
  utilities : Option (List BankRow)
  saving : Option (List BankRow)
  expense : Option (List BankRow)

/-- The dataframes appended to `all_data` by the official-2024 block:
six one-row frames when the block runs, nothing when it raised. -/
def blockOfficial (s : Sources) : List (List Record) :=
  match s.official2024 with
  | some _ => official2024Records.map fun r => [r]
  | none => []

/-- The dataframe appended by the Sales 2025 block. -/
def blockSales (s : Sources) : List (List Record) :=
  match s.sales with
  | some rows => [processSales rows]
  | none => []

/-- The dataframe appended by the Labour 2025 block. -/
def blockLabour (s : Sources) : List (List Record) :=
  match s.labour with
  | some rows => [processLabour rows]
  | none => []

/-- The dataframe appended by the Rent 2025 block. -/
def blockRent (s : Sources) : List (List Record) :=
  match s.rent with
  | some rows => [processRent rows]
  | none => []

/-- The dataframe appended by the Purchase of stock 2025 block. -/
def blockStock (s : Sources) : List (List Record) :=
  match s.stock with
  | some rows => [processStock rows]
  | none => []

/-- The dataframe appended by the Utilities 2025 block. -/
def blockUtilities (s : Sources) : List (List Record) :=
  match s.utilities with
  | some rows => [processUtilities rows]
  | none => []

/-- The dataframes appended by the Saving 2025 block: the income frame
and the withdrawal frame are each appended only when non-empty
(the `if len(...) > 0` guards on lines 177 and 188). -/
def blockSaving (s : Sources) : List (List Record) :=
  match s.saving with
  | some rows =>
      (if (savingIncome rows).isEmpty then [] else [savingIncome rows]) ++
      (if (savingExpense rows).isEmpty then [] else [savingExpense rows])
  | none => []

/-- The dataframe appended by the Other Expenses 2025 block. -/
def blockExpense (s : Sources) : List (List Record) :=
  match s.expense with
  | some rows => [processExpense rows]
  | none => []

/-- Python variable `all_data` at line 221: the dataframes appended by the blocks that
did not raise, in program order. -/
def allData (s : Sources) : List (List Record) :=
  blockOfficial s ++ blockSales s ++ blockLabour s ++ blockRent s ++
  blockStock s ++ blockUtilities s ++ blockSaving s ++ blockExpense s

/-- The `success` flag: each source block sets `success = True` when it
completes without raising, so it ends up true iff some source loaded. -/
def loadSuccess (s : Sources) : Bool :=
  s.official2024.isSome || s.sales.isSome || s.labour.isSome ||
  s.rent.isSome || s.stock.isSome || s.utilities.isSome ||
  s.saving.isSome || s.expense.isSome

/-- Outcome of `load_and_clean_data`: the returned boolean and the
`self.consolidated_data` field, which is set (to the concatenation of
`all_data`) only under `if all_data and success:` (line 221) and
otherwise stays `None`. -/
def loadAndCleanData (s : Sources) : Bool × Option (List Record) :=
  if ¬(allData s).isEmpty ∧ loadSuccess s then
    (loadSuccess s, some (allData s).flatten)
  else
    (loadSuccess s, none)

/-- Pandas expression `filtered_data[filtered_data['Type'] == 'Income']['Amount'].sum()`. -/
def totalIncome (l : List Record) : ℚ :=
  ((l.filter fun r => r.type == "Income").map Record.amount).sum

/-- Pandas expression `filtered_data[filtered_data['Type'] == 'Expense']['Amount'].sum()`. -/
def totalExpenses (l : List Record) : ℚ :=
  ((l.filter fun r => r.type == "Expense").map Record.amount).sum

/-- The dictionary returned by `calculate_kpis`. -/
structure KPIs where
  total_income : ℚ
  total_expenses : ℚ
  net_profit : ℚ
  profit_margin : ℚ
deriving DecidableEq, Repr

/-- Method `calculate_kpis` (lines 295-315): all zeros on an empty frame,
otherwise the income and expense sums, their difference, and the margin
`net_profit / total_income * 100` guarded by `if total_income > 0`. -/
def calculate_kpis (l : List Record) : KPIs :=
  if l.isEmpty then ⟨0, 0, 0, 0⟩
  else
    let ti := totalIncome l
    let te := totalExpenses l
    let np := ti - te
    ⟨ti, te, np, if 0 < ti then np / ti * 100 else 0⟩

/-- Method `filter_data` (lines 275-293) applied to the current
`consolidated_data` (`none` = not loaded, returns an empty frame).
Python truthiness is kept: `if year and year != 'both'` is false for
`year = 0`, `if categories` is false for an empty list, and
`if transaction_type and transaction_type != 'both'` is false for the
empty string and for the sentinel string. -/
def filter_data (consolidated : Option (List Record)) (year : Option Int)
    (categories : Option (List String)) (ttype : Option String) :
    List Record :=
  match consolidated with
  | none => []
  | some data =>
    let d1 := match year with
      | some y => if y ≠ 0 then data.filter (fun r => r.year == y) else data
      | none => data
    let d2 := match categories with
      | some cs =>
          if ¬cs.isEmpty then d1.filter (fun r => cs.contains r.category)
          else d1
      | none => d1
    match ttype with
    | some t =>
        if t ≠ "" ∧ t ≠ "both" then d2.filter (fun r => r.type == t) else d2
    | none => d2

/-- One entry of `summary['year_breakdown']` (lines 263-271). -/
structure YearStats where
  transactions : Nat
  total_income : ℚ
  total_expenses : ℚ
deriving DecidableEq, Repr

/-- The year breakdown entry computed for a given year: the rows with
that `Year`, counted and summed by type. -/
def yearStats (data : List Record) (y : Int) : YearStats :=
  let yd := data.filter fun r => r.year == y
  ⟨yd.length, totalIncome yd, totalExpenses yd⟩

/-- Pandas expression `sorted(self.consolidated_data['Year'].unique().tolist())`. -/
def sortedYears (data : List Record) : List Int :=
  ((data.map Record.year).dedup).insertionSort (· ≤ ·)

/-- Dictionary `summary['year_breakdown']`: one entry per distinct year. -/
def year_breakdown (data : List Record) : List (Int × YearStats) :=
  (sortedYears data).map fun y => (y, yearStats data y)

/-- The parts of the `get_data_summary` dictionary the claims use.
`get_data_summary` returns `{}` when `consolidated_data is None`;
that empty dictionary is modelled as `none`. -/
structure DataSummary where
  total_transactions : Nat
  years : List Int
  yearBreakdown : List (Int × YearStats)
deriving DecidableEq, Repr

/-- Method `get_data_summary` (lines 247-273). -/
def get_data_summary (consolidated : Option (List Record)) :
    Option DataSummary :=
  match consolidated with
  | none => none
  | some data => some ⟨data.length, sortedYears data, year_breakdown data⟩

/-- The dictionary returned by `get_official_2024_summary`. -/
structure Official2024 where
  sales : ℚ
  cogs : ℚ
  gross_profit : ℚ
  labour : ℚ
  rent : ℚ
  transport : ℚ
  transaction_costs : ℚ
  total_operating_expenses : ℚ
  net_profit : ℚ
  gross_profit_margin : ℚ
  net_profit_margin : ℚ
deriving DecidableEq, Repr

/-- Method `get_official_2024_summary` (lines 317-331): fixed constants. -/
def get_official_2024_summary : Official2024 :=
  ⟨22619122, 17244564, 5374558, 601155, 192000, 1028770, (163557.65 : ℚ),
    (1985482.65 : ℚ), (3389075.35 : ℚ), (23.8 : ℚ), 15⟩

/-- The source set in which only the official 2024 constants loaded:
the ledger is then built purely from the Source A constants. -/
def officialOnlySources : Sources :=
  ⟨some (), none, none, none, none, none, none, none⟩

/-- The fixed category label set named by the spec. -/
def validCategories : List String :=
  ["Sales", "Stock Purchase", "Labour", "Rent", "Transport",
   "Transaction Costs", "Utilities", "Savings", "Savings Withdrawal",
   "Other Expenses"]

/-- The per-record invariant stated by the spec: Category from the
fixed set and Type either Income or Expense. -/
def recordOK (r : Record) : Prop :=
  r.category ∈ validCategories ∧ (r.type = "Income" ∨ r.type = "Expense")

/-- Rounding to one decimal place, half up: the convention under which
the stored margins 23.8 and 15.0 agree with the exact percentages. -/
def round1 (x : ℚ) : ℚ := (⌊x * 10 + 1 / 2⌋ : ℤ) / 10

/-- Every amount cell of a Sales-sheet row list is non-negative. -/
def nonnegSalesRows (rows : List SalesRow) : Prop :=
  ∀ r ∈ rows, 0 ≤ r.amount.getD 0

/-- Every amount cell of a rent-sheet row list is non-negative. -/
def nonnegRentRows (rows : List RentRow) : Prop :=
  ∀ r ∈ rows, 0 ≤ r.amount.getD 0

/-- Every amount cell of a bank-shaped row list is non-negative. -/
def nonnegBankRows (rows : List BankRow) : Prop :=
  ∀ r ∈ rows, 0 ≤ r.withdrawals.getD 0 ∧ 0 ≤ r.deposits.getD 0

/-- The sources carry only non-negative amount cells, for the sheets
whose loader copies an amount cell without a positivity filter (the
Utilities and Saving loaders keep only strictly positive amounts, so
they need no such assumption). -/
def nonnegSources (s : Sources) : Prop :=
  (∀ rows, s.sales = some rows → nonnegSalesRows rows) ∧
  (∀ rows, s.labour = some rows → nonnegBankRows rows) ∧
  (∀ rows, s.rent = some rows → nonnegRentRows rows) ∧
  (∀ rows, s.stock = some rows → nonnegBankRows rows) ∧
  (∀ rows, s.expense = some rows → nonnegBankRows rows)

/-- A source set whose only loaded source is a Sales sheet holding one
row with a negative amount cell, which the loader keeps. -/
def negSalesSources : Sources :=
  ⟨none, some [⟨some 1, some (-5), "negative amount row"⟩],
    none, none, none, none, none, none⟩

/-- A source set whose only loaded source is an empty Sales sheet: the
load succeeds but contributes zero rows. -/
def emptySalesSources : Sources :=
  ⟨none, some [], none, none, none, none, none, none⟩

/-- The source set in which every load failed. -/
def allNoneSources : Sources :=
  ⟨none, none, none, none, none, none, none, none⟩

/-- A source set whose only loaded source is a Saving sheet holding one
row with an unparseable date and a positive deposit. -/
def savingBadDateSources : Sources :=
  ⟨none, none, none, none, none, none,
    some [⟨none, none, some 5, "deposit with bad date"⟩], none⟩

/-- At least one source loaded (each loaded source sets the Python
`success` flag). -/
def anyLoaded (s : Sources) : Prop :=
  s.official2024.isSome = true ∨ s.sales.isSome = true ∨
  s.labour.isSome = true ∨ s.rent.isSome = true ∨
  s.stock.isSome = true ∨ s.utilities.isSome = true ∨
  s.saving.isSome = true ∨ s.expense.isSome = true

/-- Modelled from the spec: the year criterion accepts a record when
the year matches, and an omitted year or the Python-falsy sentinel `0`
accepts every record. -/
def yearPred (year : Option Int) (r : Record) : Bool :=
  match year with
  | some y => if y ≠ 0 then r.year == y else true
  | none => true

/-- Modelled from the spec: the category criterion accepts a record
whose category belongs to the supplied list, and an omitted or empty
list accepts every record. -/
def catPred (categories : Option (List String)) (r : Record) : Bool :=
  match categories with
  | some cs => if ¬cs.isEmpty then cs.contains r.category else true
  | none => true

/-- Modelled from the spec: the type criterion accepts a record whose
type equals the supplied one, and an omitted type, the empty string or
the sentinel string accepts every record. -/
def typePred (ttype : Option String) (r : Record) : Bool :=
  match ttype with
  | some t => if t ≠ "" ∧ t ≠ "both" then r.type == t else true
  | none => true

/-- Modelled from the spec (there is no separate matcher in the code;
this is the spec's description of `filter_data` in its own words, to be
compared with the sequential-filter implementation): a record matches
when every supplied criterion accepts it, where an omitted criterion or
a Python-falsy / `'both'` sentinel (`0`, the empty list, the empty
string, `'both'`) places no constraint on its dimension. -/
def spec_matches (year : Option Int) (categories : Option (List String))
    (ttype : Option String) (r : Record) : Bool :=
  yearPred year r && catPred categories r && typePred ttype r

end Blancosy

namespace Blancosy

/-- C1: when the ledger is built purely from the Source A 2024 constants,
`calculate_kpis` on the 2024 ledger yields a net profit equal to the
`net_profit` of `get_official_2024_summary`, namely 3,389,075.35. -/
theorem C1_official_net_profit :
    (loadAndCleanData officialOnlySources).2 = some official2024Records ∧
    (calculate_kpis
        (filter_data (loadAndCleanData officialOnlySources).2
          (some 2024) none none)).net_profit =
      get_official_2024_summary.net_profit ∧
    get_official_2024_summary.net_profit = (3389075.35 : ℚ) := by
  refine ⟨?_, ?_, ?_⟩
  · simp +decide [loadAndCleanData, allData, blockOfficial, blockSales,
      blockLabour, blockRent, blockStock, blockUtilities, blockSaving,
      blockExpense, loadSuccess, officialOnlySources, official2024Records]
  · simp +decide [loadAndCleanData, allData, blockOfficial, blockSales,
      blockLabour, blockRent, blockStock, blockUtilities, blockSaving,
      blockExpense, loadSuccess, officialOnlySources, official2024Records,
      filter_data, calculate_kpis, totalIncome, totalExpenses, List.filter,
      get_official_2024_summary]
    norm_num
  · simp [get_official_2024_summary]

/-- C4 counterexample: the claim says the margin is `net / income * 100`
whenever `total_income` is non-zero, but the code keeps the zero guard
for every non-positive income. On the producible one-record ledger with
a negative Sales amount the income is −5, the claimed formula gives
100, and `calculate_kpis` returns 0. -/
theorem C4_counterexample :
    (loadAndCleanData negSalesSources).2 =
      some [⟨some 1, -5, 2025, "Sales", "Income", "negative amount row"⟩] ∧
    totalIncome [⟨some 1, -5, 2025, "Sales", "Income",
      "negative amount row"⟩] = -5 ∧
    (calculate_kpis [⟨some 1, -5, 2025, "Sales", "Income",
      "negative amount row"⟩]).profit_margin = 0 ∧
    (calculate_kpis [⟨some 1, -5, 2025, "Sales", "Income",
      "negative amount row"⟩]).net_profit /
      totalIncome [⟨some 1, -5, 2025, "Sales", "Income",
        "negative amount row"⟩] * 100 = 100 ∧
    (100 : ℚ) ≠ 0 := by
  refine ⟨?_, ?_, ?_, ?_, by norm_num⟩
  · simp +decide [loadAndCleanData, allData, blockOfficial, blockSales,
      blockLabour, blockRent, blockStock, blockUtilities, blockSaving,
      blockExpense, loadSuccess, negSalesSources, processSales]
  · simp +decide [totalIncome, List.filter]
  · simp +decide [calculate_kpis, totalIncome, totalExpenses, List.filter]
  · simp +decide [calculate_kpis, totalIncome, totalExpenses, List.filter]

/-- C4 (amended): for every subset, `calculate_kpis` returns the income
sum, the expense sum, their difference, and the margin
`net_profit / total_income * 100` when `total_income` is positive and
exactly 0 whenever `total_income` is zero or negative (the guard is
`total_income > 0`); the empty-frame early return agrees with these
formulas. -/
theorem C4_kpis (l : List Record) :
    (calculate_kpis l).total_income = totalIncome l ∧
    (calculate_kpis l).total_expenses = totalExpenses l ∧
    (calculate_kpis l).net_profit = totalIncome l - totalExpenses l ∧
    (calculate_kpis l).profit_margin =
      (if 0 < totalIncome l then
        (totalIncome l - totalExpenses l) / totalIncome l * 100
      else 0) := by
  cases l with
  | nil => simp [calculate_kpis, totalIncome, totalExpenses]
  | cons a t => simp [calculate_kpis]

/-- C9 counterexample: the stored margins are rounded values, not the
exact percentages of sales: 5374558 / 22619122 × 100 ≠ 23.8 and
3389075.35 / 22619122 × 100 ≠ 15.0. -/
theorem C9_counterexample :
    get_official_2024_summary.gross_profit_margin ≠
      get_official_2024_summary.gross_profit /
        get_official_2024_summary.sales * 100 ∧
    get_official_2024_summary.net_profit_margin ≠
      get_official_2024_summary.net_profit /
        get_official_2024_summary.sales * 100 := by
  constructor <;> · simp [get_official_2024_summary]; norm_num

/-- C9 (amended): the official summary is internally consistent with
exact arithmetic for gross profit, total operating expenses and net
profit, and its margin fields equal the percentages of sales rounded to
one decimal place (half up) rather than the exact percentages. -/
theorem C9_summary_consistent :
    get_official_2024_summary.gross_profit =
      get_official_2024_summary.sales - get_official_2024_summary.cogs ∧
    get_official_2024_summary.total_operating_expenses =
      get_official_2024_summary.labour + get_official_2024_summary.rent +
      get_official_2024_summary.transport +
      get_official_2024_summary.transaction_costs ∧
    get_official_2024_summary.net_profit =
      get_official_2024_summary.gross_profit -
      get_official_2024_summary.total_operating_expenses ∧
    get_official_2024_summary.gross_profit_margin =
      round1 (get_official_2024_summary.gross_profit /
        get_official_2024_summary.sales * 100) ∧
    get_official_2024_summary.net_profit_margin =
      round1 (get_official_2024_summary.net_profit /
        get_official_2024_summary.sales * 100) := by
  refine ⟨by norm_num [get_official_2024_summary],
    by norm_num [get_official_2024_summary],
    by norm_num [get_official_2024_summary], ?_, ?_⟩
  · have h : (⌊get_official_2024_summary.gross_profit /
        get_official_2024_summary.sales * 100 * 10 + 1 / 2⌋ : ℤ) = 238 := by
      rw [Int.floor_eq_iff]
      norm_num [get_official_2024_summary]
    simp only [round1, h]
    norm_num [get_official_2024_summary]
  · have h : (⌊get_official_2024_summary.net_profit /
        get_official_2024_summary.sales * 100 * 10 + 1 / 2⌋ : ℤ) = 150 := by
      rw [Int.floor_eq_iff]
      norm_num [get_official_2024_summary]
    simp only [round1, h]
    norm_num [get_official_2024_summary]

/-- C10: with no consolidated ledger (`consolidated_data is None`),
`filter_data` returns an empty frame for any arguments,
`get_data_summary` returns the empty dictionary, and `calculate_kpis`
on an empty frame returns all four figures equal to 0, with no error. -/
theorem C10_degrade :
    (∀ (y : Option Int) (cs : Option (List String)) (t : Option String),
        filter_data none y cs t = []) ∧
    get_data_summary none = none ∧
    calculate_kpis [] = ⟨0, 0, 0, 0⟩ := by
  exact ⟨fun y cs t => rfl, rfl, rfl⟩

/-- C3 counterexample: a Saving row with both a positive deposit and a
positive withdrawal produces two records, one Income and one Expense —
refuting the clause that no single row ever produces both. -/
theorem C3_counterexample :
    processSaving [⟨some 1, some 3, some 5, "both cells positive"⟩] =
      [⟨some 1, 5, 2025, "Savings", "Income", "both cells positive"⟩,
       ⟨some 1, 3, 2025, "Savings Withdrawal", "Expense",
         "both cells positive"⟩] ∧
    (processSaving [⟨some 1, some 3, some 5,
        "both cells positive"⟩]).length = 2 := by
  constructor
  · norm_num [processSaving, savingIncome, savingExpense, List.filter]
  · norm_num [processSaving, savingIncome, savingExpense, List.filter]

/-- C3 (amended): a Saving row with a positive deposit and no positive
withdrawal produces exactly one Income/Savings record; a row with a
positive withdrawal and no positive deposit exactly one
Expense/Savings-Withdrawal record; a row with neither produces zero
records; and a row with both a positive deposit and a positive
withdrawal produces both records, one of each type. -/
theorem C3_saving_rows (row : BankRow) :
    (0 < row.deposits.getD 0 → ¬(0 < row.withdrawals.getD 0) →
      processSaving [row] =
        [⟨row.tranDate, row.deposits.getD 0, 2025, "Savings", "Income",
          row.details⟩]) ∧
    (0 < row.withdrawals.getD 0 → ¬(0 < row.deposits.getD 0) →
      processSaving [row] =
        [⟨row.tranDate, row.withdrawals.getD 0, 2025, "Savings Withdrawal",
          "Expense", row.details⟩]) ∧
    (¬(0 < row.deposits.getD 0) → ¬(0 < row.withdrawals.getD 0) →
      processSaving [row] = []) ∧
    (0 < row.deposits.getD 0 → 0 < row.withdrawals.getD 0 →
      processSaving [row] =
        [⟨row.tranDate, row.deposits.getD 0, 2025, "Savings", "Income",
          row.details⟩,
         ⟨row.tranDate, row.withdrawals.getD 0, 2025, "Savings Withdrawal",
          "Expense", row.details⟩]) := by
  refine ⟨fun h1 h2 => ?_, fun h1 h2 => ?_, fun h1 h2 => ?_,
    fun h1 h2 => ?_⟩ <;>
    simp [processSaving, savingIncome, savingExpense, List.filter, h1, h2]

/-- C3 witness: the amended theorem applied to a concrete deposit-only
row. -/
theorem C3_saving_rows_witness :
    processSaving [⟨some 7, none, some 5, "deposit row"⟩] =
      [⟨some 7, 5, 2025, "Savings", "Income", "deposit row"⟩] :=
  (C3_saving_rows ⟨some 7, none, some 5, "deposit row"⟩).1
    (by norm_num) (by norm_num)

/-- C5 counterexample: the Saving loader never drops rows whose date
failed to parse, so a Saving row with an unparseable date and a
positive deposit contributes one record to the consolidated ledger
instead of zero. -/
theorem C5_counterexample :
    (loadAndCleanData savingBadDateSources).2 =
      some [⟨none, 5, 2025, "Savings", "Income", "deposit with bad date"⟩] ∧
    processSaving [⟨none, none, some 5, "deposit with bad date"⟩] ≠ [] := by
  constructor
  · norm_num [loadAndCleanData, allData, blockOfficial, blockSales,
      blockLabour, blockRent, blockStock, blockUtilities, blockSaving,
      blockExpense, loadSuccess, savingBadDateSources, processSaving,
      savingIncome, savingExpense, List.filter]
  · norm_num [processSaving, savingIncome, savingExpense, List.filter]

/-- C5 (amended): for the Sales, Labour, Rent, Purchase-of-stock,
Utilities and Other-Expenses sheets, a row with a missing or
unparseable date or amount contributes zero records (appending such a
row leaves the output unchanged) and causes no load failure; the Saving
sheet excludes rows without a positive deposit or withdrawal, but does
not drop rows on a missing date — a Saving row with a missing date and
a positive deposit or withdrawal still contributes a record. -/
theorem C5_row_drops :
    (∀ (a : List SalesRow) (r : SalesRow), r.date = none ∨ r.amount = none →
      processSales (a ++ [r]) = processSales a) ∧
    (∀ (a : List BankRow) (r : BankRow),
      r.tranDate = none ∨ r.withdrawals = none →
      processLabour (a ++ [r]) = processLabour a) ∧
    (∀ (a : List RentRow) (r : RentRow), r.date = none ∨ r.amount = none →
      processRent (a ++ [r]) = processRent a) ∧
    (∀ (a : List BankRow) (r : BankRow),
      r.tranDate = none ∨ r.deposits = none →
      processStock (a ++ [r]) = processStock a) ∧
    (∀ (a : List BankRow) (r : BankRow),
      r.tranDate = none ∨ (r.withdrawals = none ∧ r.deposits = none) →
      processUtilities (a ++ [r]) = processUtilities a) ∧
    (∀ (a : List BankRow) (r : BankRow),
      r.tranDate = none ∨ r.withdrawals = none →
      processExpense (a ++ [r]) = processExpense a) ∧
    (∀ (a : List BankRow) (r : BankRow),
      ¬(0 < r.deposits.getD 0) → ¬(0 < r.withdrawals.getD 0) →
      processSaving (a ++ [r]) = processSaving a) := by
  refine ⟨?_, ?_, ?_, ?_, ?_, ?_, ?_⟩
  · intro a r h
    rcases h with h | h <;>
      simp [processSales, List.filterMap_append, h]
  · intro a r h
    rcases h with h | h <;>
      simp [processLabour, List.filterMap_append, h]
  · intro a r h
    cases a with
    | nil => rcases h with h | h <;> simp [processRent, h]
    | cons b bs =>
        rcases h with h | h <;>
          simp [processRent, List.filterMap_append, h]
  · intro a r h
    rcases h with h | h <;>
      simp [processStock, List.filterMap_append, h]
  · intro a r h
    rcases h with h | h
    · simp [processUtilities, List.filter_append, h]
    · simp [processUtilities, List.filter_append, h.1, h.2]
  · intro a r h
    rcases h with h | h <;>
      simp [processExpense, List.filterMap_append, h]
  · intro a r h1 h2
    simp [processSaving, savingIncome, savingExpense, List.filter_append,
      h1, h2]

/-- C5 witness: the amended theorem applied to a Sales row whose date is
missing and a Saving row with no amounts. -/
theorem C5_row_drops_witness :
    processSales ([⟨some 2, some 7, "good"⟩] ++ [⟨none, some 9, "bad"⟩]) =
      processSales [⟨some 2, some 7, "good"⟩] ∧
    processSaving ([] ++ [⟨some 2, none, none, "empty"⟩]) =
      processSaving [] := by
  constructor
  · exact C5_row_drops.1 [⟨some 2, some 7, "good"⟩] ⟨none, some 9, "bad"⟩
      (Or.inl rfl)
  · exact C5_row_drops.2.2.2.2.2.2 [] ⟨some 2, none, none, "empty"⟩
      (by norm_num) (by norm_num)

/-- C6: each source sits in its own exception handler, so when one
source fails to load it contributes zero dataframes while every other
source is still processed: the consolidated data equals the
concatenation of the remaining sources' contributions, exactly as if
the failing source had been absent; and whenever a ledger is produced
it is the concatenation of `all_data`. -/
theorem C6_source_independence (s : Sources) :
    (blockOfficial {s with official2024 := none} = [] ∧
      allData {s with official2024 := none} =
        blockSales s ++ blockLabour s ++ blockRent s ++ blockStock s ++
        blockUtilities s ++ blockSaving s ++ blockExpense s) ∧
    (blockSales {s with sales := none} = [] ∧
      allData {s with sales := none} =
        blockOfficial s ++ blockLabour s ++ blockRent s ++ blockStock s ++
        blockUtilities s ++ blockSaving s ++ blockExpense s) ∧
    (blockLabour {s with labour := none} = [] ∧
      allData {s with labour := none} =
        blockOfficial s ++ blockSales s ++ blockRent s ++ blockStock s ++
        blockUtilities s ++ blockSaving s ++ blockExpense s) ∧
    (blockRent {s with rent := none} = [] ∧
      allData {s with rent := none} =
        blockOfficial s ++ blockSales s ++ blockLabour s ++ blockStock s ++
        blockUtilities s ++ blockSaving s ++ blockExpense s) ∧
    (blockStock {s with stock := none} = [] ∧
      allData {s with stock := none} =
        blockOfficial s ++ blockSales s ++ blockLabour s ++ blockRent s ++
        blockUtilities s ++ blockSaving s ++ blockExpense s) ∧
    (blockUtilities {s with utilities := none} = [] ∧
      allData {s with utilities := none} =
        blockOfficial s ++ blockSales s ++ blockLabour s ++ blockRent s ++
        blockStock s ++ blockSaving s ++ blockExpense s) ∧
    (blockSaving {s with saving := none} = [] ∧
      allData {s with saving := none} =
        blockOfficial s ++ blockSales s ++ blockLabour s ++ blockRent s ++
        blockStock s ++ blockUtilities s ++ blockExpense s) ∧
    (blockExpense {s with expense := none} = [] ∧
      allData {s with expense := none} =
        blockOfficial s ++ blockSales s ++ blockLabour s ++ blockRent s ++
        blockStock s ++ blockUtilities s ++ blockSaving s) ∧
    (∀ l, (loadAndCleanData s).2 = some l → l = (allData s).flatten) := by
  have hlast : ∀ l, (loadAndCleanData s).2 = some l →
      l = (allData s).flatten := by
    intro l hl
    unfold loadAndCleanData at hl
    split at hl
    · exact (Option.some_injective _ hl).symm
    · exact absurd hl (by simp)
  refine ⟨⟨rfl, ?_⟩, ⟨rfl, ?_⟩, ⟨rfl, ?_⟩, ⟨rfl, ?_⟩, ⟨rfl, ?_⟩,
    ⟨rfl, ?_⟩, ⟨rfl, ?_⟩, ⟨rfl, ?_⟩, hlast⟩ <;>
    simp [allData, blockOfficial, blockSales, blockLabour, blockRent,
      blockStock, blockUtilities, blockSaving, blockExpense]

/-- C6 witness: the final conjunct applied to the concrete source set in
which only the official constants loaded. -/
theorem C6_source_independence_witness :
    official2024Records = (allData officialOnlySources).flatten :=
  (C6_source_independence officialOnlySources).2.2.2.2.2.2.2.2
    official2024Records
    (by norm_num [loadAndCleanData, allData, blockOfficial, blockSales,
      blockLabour, blockRent, blockStock, blockUtilities, blockSaving,
      blockExpense, loadSuccess, officialOnlySources, official2024Records])

/-- C8 counterexample: when the only loaded source is an empty Sales
sheet, zero rows are produced, yet `load_and_clean_data` returns `True`
and an (empty) consolidated ledger is produced — the claim demands
`False` and no ledger. -/
theorem C8_counterexample :
    (loadAndCleanData emptySalesSources).1 = true ∧
    (loadAndCleanData emptySalesSources).2 = some [] := by
  constructor <;>
    norm_num [loadAndCleanData, allData, blockOfficial, blockSales,
      blockLabour, blockRent, blockStock, blockUtilities, blockSaving,
      blockExpense, loadSuccess, emptySalesSources, processSales]

/-- C8 (amended): `load_and_clean_data` returns `True` iff at least one
source loaded; when zero sources LOAD it returns `False` and no
consolidated ledger is produced; and a ledger is only ever produced
when the result is `True`. A source that loads but contributes zero
rows still counts as success. -/
theorem C8_success_policy (s : Sources) :
    ((loadAndCleanData s).1 = true ↔ anyLoaded s) ∧
    (¬anyLoaded s → (loadAndCleanData s).2 = none) ∧
    ((loadAndCleanData s).2 ≠ none → (loadAndCleanData s).1 = true) := by
  have h1 : (loadAndCleanData s).1 = loadSuccess s := by
    unfold loadAndCleanData
    split <;> rfl
  have hls : loadSuccess s = true ↔ anyLoaded s := by
    simp [loadSuccess, anyLoaded, Bool.or_eq_true, or_assoc]
  refine ⟨h1 ▸ hls, ?_, ?_⟩
  · intro h
    have hfalse : loadSuccess s = false := by
      cases hco : loadSuccess s
      · rfl
      · exact absurd (hls.mp hco) h
    simp [loadAndCleanData, hfalse]
  · intro h
    rw [h1]
    cases hco : loadSuccess s with
    | true => rfl
    | false =>
        exact absurd (by simp [loadAndCleanData, hco]) h

/-- C8 witness: the amended theorem applied to the source set in which
every load failed. -/
theorem C8_success_policy_witness :
    (loadAndCleanData allNoneSources).2 = none :=
  (C8_success_policy allNoneSources).2.1
    (by simp [anyLoaded, allNoneSources])

lemma official_ok : ∀ r ∈ official2024Records, 0 ≤ r.amount ∧ recordOK r := by
  intro r hr
  simp only [official2024Records, List.mem_cons, List.not_mem_nil,
    or_false] at hr
  rcases hr with h | h | h | h | h | h <;> subst h <;>
    exact ⟨by norm_num, by simp [recordOK, validCategories]⟩

lemma processSales_ok (rows : List SalesRow) :
    ∀ r ∈ processSales rows,
      recordOK r ∧ (nonnegSalesRows rows → 0 ≤ r.amount) := by
  intro r hr
  simp only [processSales, List.mem_filterMap] at hr
  obtain ⟨row, hrow, heq⟩ := hr
  cases hd : row.date with
  | none => rw [hd] at heq; cases heq
  | some d =>
    cases ha : row.amount with
    | none => rw [hd, ha] at heq; cases heq
    | some a =>
      rw [hd, ha] at heq
      injection heq with h2
      subst h2
      refine ⟨by simp [recordOK, validCategories], fun h => ?_⟩
      have := h row hrow
      rwa [ha, Option.getD_some] at this

lemma processLabour_ok (rows : List BankRow) :
    ∀ r ∈ processLabour rows,
      recordOK r ∧ (nonnegBankRows rows → 0 ≤ r.amount) := by
  intro r hr
  simp only [processLabour, List.mem_filterMap] at hr
  obtain ⟨row, hrow, heq⟩ := hr
  cases hd : row.tranDate with
  | none => rw [hd] at heq; cases heq
  | some d =>
    cases ha : row.withdrawals with
    | none => rw [hd, ha] at heq; cases heq
    | some a =>
      rw [hd, ha] at heq
      injection heq with h2
      subst h2
      refine ⟨by simp [recordOK, validCategories], fun h => ?_⟩
      have := (h row hrow).1
      rwa [ha, Option.getD_some] at this

lemma processRent_ok (rows : List RentRow) :
    ∀ r ∈ processRent rows,
      recordOK r ∧ (nonnegRentRows rows → 0 ≤ r.amount) := by
  intro r hr
  simp only [processRent, List.mem_filterMap] at hr
  obtain ⟨row, hrow, heq⟩ := hr
  have hrow2 : row ∈ rows := List.mem_of_mem_drop hrow
  cases hd : row.date with
  | none => rw [hd] at heq; cases heq
  | some d =>
    cases ha : row.amount with
    | none => rw [hd, ha] at heq; cases heq
    | some a =>
      rw [hd, ha] at heq
      injection heq with h2
      subst h2
      refine ⟨by simp [recordOK, validCategories], fun h => ?_⟩
      have := h row hrow2
      rwa [ha, Option.getD_some] at this

lemma processStock_ok (rows : List BankRow) :
    ∀ r ∈ processStock rows,
      recordOK r ∧ (nonnegBankRows rows → 0 ≤ r.amount) := by
  intro r hr
  simp only [processStock, List.mem_filterMap] at hr
  obtain ⟨row, hrow, heq⟩ := hr
  cases hd : row.tranDate with
  | none => rw [hd] at heq; cases heq
  | some d =>
    cases ha : row.deposits with
    | none => rw [hd, ha] at heq; cases heq
    | some a =>
      rw [hd, ha] at heq
      injection heq with h2
      subst h2
      refine ⟨by simp [recordOK, validCategories], fun h => ?_⟩
      have := (h row hrow).2
      rwa [ha, Option.getD_some] at this

lemma processExpense_ok (rows : List BankRow) :
    ∀ r ∈ processExpense rows,
      recordOK r ∧ (nonnegBankRows rows → 0 ≤ r.amount) := by
  intro r hr
  simp only [processExpense, List.mem_filterMap] at hr
  obtain ⟨row, hrow, heq⟩ := hr
  cases hd : row.tranDate with
  | none => rw [hd] at heq; cases heq
  | some d =>
    cases ha : row.withdrawals with
    | none => rw [hd, ha] at heq; cases heq
    | some a =>
      rw [hd, ha] at heq
      injection heq with h2
      subst h2
      refine ⟨by simp [recordOK, validCategories], fun h => ?_⟩
      have := (h row hrow).1
      rwa [ha, Option.getD_some] at this

lemma processUtilities_ok (rows : List BankRow) :
    ∀ r ∈ processUtilities rows, 0 ≤ r.amount ∧ recordOK r := by
  intro r hr
  simp only [processUtilities, List.mem_map, List.mem_filter,
    Bool.and_eq_true, decide_eq_true_eq] at hr
  obtain ⟨row, ⟨hrow, hdate, hpos⟩, rfl⟩ := hr
  exact ⟨le_of_lt hpos, by simp [recordOK, validCategories]⟩

lemma savingIncome_ok (rows : List BankRow) :
    ∀ r ∈ savingIncome rows, 0 ≤ r.amount ∧ recordOK r := by
  intro r hr
  simp only [savingIncome, List.mem_map, List.mem_filter,
    decide_eq_true_eq] at hr
  obtain ⟨row, ⟨hrow, hpos⟩, rfl⟩ := hr
  exact ⟨le_of_lt hpos, by simp [recordOK, validCategories]⟩

lemma savingExpense_ok (rows : List BankRow) :
    ∀ r ∈ savingExpense rows, 0 ≤ r.amount ∧ recordOK r := by
  intro r hr
  simp only [savingExpense, List.mem_map, List.mem_filter,
    decide_eq_true_eq] at hr
  obtain ⟨row, ⟨hrow, hpos⟩, rfl⟩ := hr
  exact ⟨le_of_lt hpos, by simp [recordOK, validCategories]⟩

/-- C2 counterexample: the loaders do not reject negative amount cells
(outside Utilities and Saving), so a Sales-sheet row with amount −5
puts a record with negative Amount into the consolidated ledger. -/
theorem C2_counterexample :
    (loadAndCleanData negSalesSources).2 =
      some [⟨some 1, -5, 2025, "Sales", "Income", "negative amount row"⟩] ∧
    ¬(0 ≤ (⟨some 1, -5, 2025, "Sales", "Income",
        "negative amount row"⟩ : Record).amount) := by
  constructor
  · simp +decide [loadAndCleanData, allData, blockOfficial, blockSales,
      blockLabour, blockRent, blockStock, blockUtilities, blockSaving,
      blockExpense, loadSuccess, negSalesSources, processSales]
  · norm_num

/-- C2 (amended): every record of a consolidated ledger has a non-null
Category from the fixed label set and Type Income or Expense,
unconditionally; Amount ≥ 0 holds provided every amount cell of the
loaded sources is non-negative (the loaders pass negative amounts
through except in the Utilities and Saving sheets, whose records are
strictly positive by construction). -/
theorem C2_record_invariants (s : Sources) (l : List Record)
    (hl : (loadAndCleanData s).2 = some l) :
    (∀ r ∈ l, recordOK r) ∧
    (nonnegSources s → ∀ r ∈ l, 0 ≤ r.amount) := by
  have hflat : l = (allData s).flatten := by
    unfold loadAndCleanData at hl
    split at hl
    · exact (Option.some_injective _ hl).symm
    · exact absurd hl (by simp)
  subst hflat
  have key : ∀ r ∈ (allData s).flatten,
      recordOK r ∧ (nonnegSources s → 0 ≤ r.amount) := by
    intro r hr
    rw [List.mem_flatten] at hr
    obtain ⟨b, hb, hrb⟩ := hr
    unfold allData at hb
    simp only [List.mem_append, or_assoc] at hb
    rcases hb with hb | hb | hb | hb | hb | hb | hb | hb
    · unfold blockOfficial at hb
      cases ho : s.official2024 with
      | none => rw [ho] at hb; simp at hb
      | some u =>
          rw [ho] at hb
          simp only [List.mem_map] at hb
          obtain ⟨r0, hr0, rfl⟩ := hb
          simp only [List.mem_singleton] at hrb
          subst hrb
          exact ⟨(official_ok r hr0).2, fun _ => (official_ok r hr0).1⟩
    · unfold blockSales at hb
      cases ho : s.sales with
      | none => rw [ho] at hb; simp at hb
      | some rows =>
          rw [ho] at hb
          simp only [List.mem_singleton] at hb
          subst hb
          exact ⟨(processSales_ok rows r hrb).1,
            fun hnn => (processSales_ok rows r hrb).2 (hnn.1 rows ho)⟩
    · unfold blockLabour at hb
      cases ho : s.labour with
      | none => rw [ho] at hb; simp at hb
      | some rows =>
          rw [ho] at hb
          simp only [List.mem_singleton] at hb
          subst hb
          exact ⟨(processLabour_ok rows r hrb).1,
            fun hnn => (processLabour_ok rows r hrb).2 (hnn.2.1 rows ho)⟩
    · unfold blockRent at hb
      cases ho : s.rent with
      | none => rw [ho] at hb; simp at hb
      | some rows =>
          rw [ho] at hb
          simp only [List.mem_singleton] at hb
          subst hb
          exact ⟨(processRent_ok rows r hrb).1,
            fun hnn => (processRent_ok rows r hrb).2 (hnn.2.2.1 rows ho)⟩
    · unfold blockStock at hb
      cases ho : s.stock with
      | none => rw [ho] at hb; simp at hb
      | some rows =>
          rw [ho] at hb
          simp only [List.mem_singleton] at hb
          subst hb
          exact ⟨(processStock_ok rows r hrb).1,
            fun hnn => (processStock_ok rows r hrb).2 (hnn.2.2.2.1 rows ho)⟩
    · unfold blockUtilities at hb
      cases ho : s.utilities with
      | none => rw [ho] at hb; simp at hb
      | some rows =>
          rw [ho] at hb
          simp only [List.mem_singleton] at hb
          subst hb
          exact ⟨(processUtilities_ok rows r hrb).2,
            fun _ => (processUtilities_ok rows r hrb).1⟩
    · unfold blockSaving at hb
      cases ho : s.saving with
      | none => rw [ho] at hb; simp at hb
      | some rows =>
          rw [ho] at hb
          rw [List.mem_append] at hb
          rcases hb with hb | hb
          · split at hb
            · simp at hb
            · simp only [List.mem_singleton] at hb
              subst hb
              exact ⟨(savingIncome_ok rows r hrb).2,
                fun _ => (savingIncome_ok rows r hrb).1⟩
          · split at hb
            · simp at hb
            · simp only [List.mem_singleton] at hb
              subst hb
              exact ⟨(savingExpense_ok rows r hrb).2,
                fun _ => (savingExpense_ok rows r hrb).1⟩
    · unfold blockExpense at hb
      cases ho : s.expense with
      | none => rw [ho] at hb; simp at hb
      | some rows =>
          rw [ho] at hb
          simp only [List.mem_singleton] at hb
          subst hb
          exact ⟨(processExpense_ok rows r hrb).1,
            fun hnn => (processExpense_ok rows r hrb).2 (hnn.2.2.2.2 rows ho)⟩
  exact ⟨fun r hr => (key r hr).1, fun hnn r hr => (key r hr).2 hnn⟩

/-- C2 witness: the amended theorem applied to the official-only source
set and the first 2024 record, exercising both the unconditional
Category/Type part and the non-negativity part. -/
theorem C2_record_invariants_witness :
    recordOK (⟨some 20241231, 22619122, 2024, "Sales", "Income",
        "Total Sales Revenue (Official P&L)"⟩ : Record) ∧
    0 ≤ (⟨some 20241231, 22619122, 2024, "Sales", "Income",
        "Total Sales Revenue (Official P&L)"⟩ : Record).amount := by
  have h := C2_record_invariants officialOnlySources official2024Records
    (by norm_num [loadAndCleanData, allData, blockOfficial, blockSales,
      blockLabour, blockRent, blockStock, blockUtilities, blockSaving,
      blockExpense, loadSuccess, officialOnlySources, official2024Records])
  exact ⟨h.1 _ (by simp [official2024Records]),
    h.2 (by simp [nonnegSources, officialOnlySources]) _
      (by simp [official2024Records])⟩

lemma filter_yearPred (data : List Record) (y : Option Int) :
    data.filter (yearPred y) = (match y with
      | some yv => if yv ≠ 0 then data.filter (fun r => r.year == yv)
          else data
      | none => data) := by
  rcases y with _ | yv
  · exact List.filter_eq_self.mpr fun r _ => by simp [yearPred]
  · show data.filter (yearPred (some yv)) =
      if yv ≠ 0 then data.filter (fun r => r.year == yv) else data
    by_cases h0 : yv ≠ 0
    · rw [if_pos h0]
      exact List.filter_congr fun r _ => by simp [yearPred, h0]
    · rw [if_neg h0]
      exact List.filter_eq_self.mpr fun r _ => by simp [yearPred, h0]

lemma filter_catPred (data : List Record) (cs : Option (List String)) :
    data.filter (catPred cs) = (match cs with
      | some csv => if ¬csv.isEmpty then
          data.filter (fun r => csv.contains r.category) else data
      | none => data) := by
  rcases cs with _ | csv
  · exact List.filter_eq_self.mpr fun r _ => by simp [catPred]
  · show data.filter (catPred (some csv)) =
      if ¬csv.isEmpty then data.filter (fun r => csv.contains r.category)
      else data
    by_cases h0 : csv.isEmpty = true
    · rw [if_neg (not_not_intro h0)]
      exact List.filter_eq_self.mpr fun r _ => by simp [catPred, h0]
    · rw [if_pos h0]
      exact List.filter_congr fun r _ => by simp [catPred, h0]

lemma filter_typePred (data : List Record) (t : Option String) :
    data.filter (typePred t) = (match t with
      | some tv => if tv ≠ "" ∧ tv ≠ "both" then
          data.filter (fun r => r.type == tv) else data
      | none => data) := by
  rcases t with _ | tv
  · exact List.filter_eq_self.mpr fun r _ => by simp [typePred]
  · show data.filter (typePred (some tv)) =
      if tv ≠ "" ∧ tv ≠ "both" then data.filter (fun r => r.type == tv)
      else data
    by_cases h0 : tv ≠ "" ∧ tv ≠ "both"
    · rw [if_pos h0]
      exact List.filter_congr fun r _ => by simp [typePred, h0]
    · rw [if_neg h0]
      exact List.filter_eq_self.mpr fun r _ => by simp [typePred, h0]

lemma filter_data_eq_three (data : List Record) (y : Option Int)
    (cs : Option (List String)) (t : Option String) :
    filter_data (some data) y cs t =
      ((data.filter (yearPred y)).filter (catPred cs)).filter
        (typePred t) := by
  rw [filter_yearPred, filter_catPred, filter_typePred]
  rfl

lemma filter_three (p q w : Record → Bool) (data : List Record) :
    ((data.filter p).filter q).filter w =
      data.filter (fun r => p r && q r && w r) := by
  simp only [List.filter_filter]
  refine List.filter_congr ?_
  intro r _
  cases hp : p r <;> cases hq : q r <;> cases hw : w r <;>
    simp [hp, hq, hw]

/-- C7: `filter_data` with year 2024 returns exactly the records whose
Year is 2024; the result is a sublist of the ledger; its length equals
the transaction count of the 2024 entry of the year breakdown of
`get_data_summary`; and in general `filter_data` returns the records
matching all supplied criteria, an omitted or sentinel criterion
matching every record. -/
theorem C7_filter (data : List Record) :
    (filter_data (some data) (some 2024) none none =
      data.filter (fun r => r.year == 2024)) ∧
    (filter_data (some data) (some 2024) none none).Sublist data ∧
    (2024 ∈ sortedYears data →
      (2024, yearStats data 2024) ∈ year_breakdown data ∧
      (yearStats data 2024).transactions =
        (filter_data (some data) (some 2024) none none).length) ∧
    (∀ (y : Option Int) (cs : Option (List String)) (t : Option String),
      filter_data (some data) y cs t =
        data.filter (spec_matches y cs t)) := by
  have h1 : filter_data (some data) (some 2024) none none =
      data.filter (fun r => r.year == 2024) := by
    simp [filter_data]
  refine ⟨h1, ?_, ?_, ?_⟩
  · rw [h1]
    exact List.filter_sublist data
  · intro hmem
    constructor
    · exact List.mem_map.mpr ⟨2024, hmem, rfl⟩
    · rw [h1]
      rfl
  · intro y cs t
    rw [filter_data_eq_three, filter_three]
    rfl

/-- C7 witness: the theorem applied to the concrete 2024 ledger, whose
year list contains 2024. -/
theorem C7_filter_witness :
    (2024, yearStats official2024Records 2024) ∈
      year_breakdown official2024Records ∧
    (yearStats official2024Records 2024).transactions =
      (filter_data (some official2024Records) (some 2024) none
        none).length :=
  (C7_filter official2024Records).2.2.1 (by decide)

end Blancosy
